import Mathlib

/-!
# Clipboard reader: a shallow embedding of `clip.go` and `clip_windows.go`

The package reads the Windows clipboard through seven procedures of
`user32.dll` and `kernel32.dll`.  The operating system is an explicit
parameter here: a state type `σ` and a function answering every procedure
call.  `getClipboardData` threads that state through its calls and records
every call it makes, with what the call returned, in a log.

Machine words are natural numbers; `w` is the width in bits of `uintptr`,
`uint` and `int` (32 or 64 on the platforms Go supports for Windows).
-/

namespace Clipboard

/-! ## Go values -/

/-- A `syscall.Errno`, the error type `LazyProc.Call` constructs from
`GetLastError`.  The source looks at such a value only through its `Error()`
method, so the value is represented by the text that method returns. -/
structure Errno where
  Error : String
deriving DecidableEq, Repr

/-- The non-nil values of Go's `error` interface that occur in the package:
an `Errno` handed back by a procedure call, or the result of `errors.New`. -/
inductive ErrorValue where
  | errno (e : Errno)
  | errorString (s : String)
deriving DecidableEq, Repr

/-- The `Error()` method. -/
def ErrorValue.Error : ErrorValue → String
  | .errno e => e.Error
  | .errorString s => s

/-- Go's `error`: `none` is `nil`. -/
abbrev GoError := Option ErrorValue

/-- The function `errors.New`. -/
def errorsNew (s : String) : GoError := some (.errorString s)

/-- The type `DataFormat`, declared `type DataFormat int` in clip.go. -/
abbrev DataFormat := Int

/-- The header of a `[]byte` (`reflect.SliceHeader`): address of the first
byte, length and capacity.  The bytes themselves live in memory owned by the
operating system and are not part of the model. -/
structure SliceHeader where
  Data : Nat
  Len : Int
  Cap : Int
deriving DecidableEq, Repr

/-- The `nil` slice. -/
def nilSlice : SliceHeader := ⟨0, 0, 0⟩

/-! ## Integer conversions -/

/-- The constant `MaxUint = ^uint(0)` of line 80, for a `uint` of `w` bits. -/
def MaxUint (w : Nat) : Nat := 2 ^ w - 1

/-- Conversion of any non-negative value to `uint`/`uintptr`: truncation to
`w` bits. -/
def toUint (w : Nat) (x : Nat) : Nat := x % 2 ^ w

/-- Conversion `int(u)` (and `DataFormat(u)`) of an unsigned word to the
signed type of the same width: the bits are kept, so a word with the top bit
set becomes negative. -/
def toInt (w : Nat) (u : Nat) : Int :=
  if u % 2 ^ w < 2 ^ (w - 1) then ((u % 2 ^ w : Nat) : Int)
  else ((u % 2 ^ w : Nat) : Int) - ((2 ^ w : Nat) : Int)

/-! ## Format tags (clip_windows.go, lines 30 to 58) -/

def FormatNone : DataFormat := 0
def FormatText : DataFormat := 1
def FormatBitmap : DataFormat := 2
def FormatMetaFilePict : DataFormat := 3
def FormatSYLK : DataFormat := 4
def FormatDIF : DataFormat := 5
def FormatTIFF : DataFormat := 6
def FormatOEMText : DataFormat := 7
def FormatDIB : DataFormat := 8
def FormatPalette : DataFormat := 9
def FormatPenData : DataFormat := 10
def FormatRIFF : DataFormat := 11
def FormatWave : DataFormat := 12
def FormatUnicodeText : DataFormat := 13
def FormatENHMetaFile : DataFormat := 14
def FormatHDROP : DataFormat := 15
def FormatLocale : DataFormat := 16
def FormatDIBV5 : DataFormat := 17
def FormatOwnerDisplay : DataFormat := 0x0080
def FormatDSPText : DataFormat := 0x0081
def FormatDSPBitmap : DataFormat := 0x0082
def FormatDSPMetaFilePict : DataFormat := 0x0083
def FormatDSPENHMetaFile : DataFormat := 0x008E
def FormatPrivateFirst : DataFormat := 0x0200
def FormatPrivateLast : DataFormat := 0x02FF
def FormatGDIObjFirst : DataFormat := 0x0300
def FormatGDIObjLast : DataFormat := 0x03FF

/-- The twenty-seven declared tags, in the order of the `const` block. -/
def allFormats : List DataFormat :=
  [FormatNone, FormatText, FormatBitmap, FormatMetaFilePict, FormatSYLK, FormatDIF,
   FormatTIFF, FormatOEMText, FormatDIB, FormatPalette, FormatPenData, FormatRIFF,
   FormatWave, FormatUnicodeText, FormatENHMetaFile, FormatHDROP, FormatLocale,
   FormatDIBV5, FormatOwnerDisplay, FormatDSPText, FormatDSPBitmap,
   FormatDSPMetaFilePict, FormatDSPENHMetaFile, FormatPrivateFirst, FormatPrivateLast,
   FormatGDIObjFirst, FormatGDIObjLast]

/-- The declared tags that are not an end point of the private or of the
GDI-object range. -/
def plainFormats : List DataFormat :=
  [FormatNone, FormatText, FormatBitmap, FormatMetaFilePict, FormatSYLK, FormatDIF,
   FormatTIFF, FormatOEMText, FormatDIB, FormatPalette, FormatPenData, FormatRIFF,
   FormatWave, FormatUnicodeText, FormatENHMetaFile, FormatHDROP, FormatLocale,
   FormatDIBV5, FormatOwnerDisplay, FormatDSPText, FormatDSPBitmap,
   FormatDSPMetaFilePict, FormatDSPENHMetaFile]

/-! ## The operating system -/

/-- The procedures resolved in the `var` block of clip_windows.go. -/
inductive Proc where
  | procOpenClipboard
  | procCloseClipboard
  | procGetClipboardData
  | procEnumClipboardFormats
  | procGlobalSize
  | procGlobalLock
  | procGlobalUnlock
deriving DecidableEq, Repr

/-- What the operating system answers to one call: the primary return value
and the thread's last-error status.  (The secondary return value `r2` is
discarded at every call site of the source.) -/
structure Answer where
  r1 : Nat
  lastErr : Errno
deriving DecidableEq, Repr

/-- An operating system with states `σ`: the answer to a call of a procedure
with the given arguments, and the state after the call. -/
structure OS (σ : Type) where
  invoke : σ → Proc → List Nat → Answer × σ

/-- One entry of the call log: the procedure, its arguments, and what
`Call` returned to the program. -/
structure Event where
  proc : Proc
  args : List Nat
  r1 : Nat
  lastErr : GoError
deriving DecidableEq, Repr

/-- The running program's view of the world: the state of the operating
system and the calls made so far, oldest first. -/
structure Machine (σ : Type) where
  os : σ
  log : List Event

/-- What `(*LazyProc).Call` returns, with the machine after the call. -/
structure Called (σ : Type) where
  r1 : Nat
  lastErr : GoError
  machine : Machine σ

/-- The method `(*LazyProc).Call` of golang.org/x/sys/windows: it runs the
procedure and returns its primary return value as a `uintptr` together with
the last-error status as an `error`.  The returned error is never `nil`: it
is always an `Errno`, also when the call succeeded.  The seven procedures are
exported by `user32.dll` and `kernel32.dll`, so the lookup that precedes the
call finds them.  The call is appended to the log. -/
def Call {σ : Type} (w : Nat) (sys : OS σ) (m : Machine σ) (p : Proc) (a : List Nat) :
    Called σ :=
  let ans := sys.invoke m.os p a
  let r1 := toUint w ans.1.r1
  let err : GoError := some (.errno ans.1.lastErr)
  { r1 := r1, lastErr := err, machine := ⟨ans.2, m.log ++ [⟨p, a, r1, err⟩]⟩ }

/-! ## clip_windows.go -/

/-- The function `isValidError` (clip_windows.go, lines 106 to 111). -/
def isValidError (err : GoError) : Bool :=
  match err with
  | none => false
  | some e => if e.Error = "The operation completed successfully." then false else true

/-- What `getClipboardData` returns, with the machine it leaves behind. -/
structure Outcome (σ : Type) where
  data : SliceHeader
  format : DataFormat
  err : GoError
  machine : Machine σ

/-- Lines 66 to 103 of `getClipboardData`: the statements that run between
the `defer` of line 65 and the deferred call. -/
def getClipboardDataBody {σ : Type} (w : Nat) (sys : OS σ) (m : Machine σ) : Outcome σ :=
  let c2 := Call w sys m .procEnumClipboardFormats [0]
  let enumFormat := c2.r1
  let format : DataFormat := toInt w enumFormat
  let c3 := Call w sys c2.machine .procGetClipboardData [enumFormat]
  let h := c3.r1
  if isValidError c3.lastErr then
    ⟨nilSlice, FormatNone, c3.lastErr, c3.machine⟩
  else
    let c4 := Call w sys c3.machine .procGlobalSize [h]
    let sizep := c4.r1
    if isValidError c4.lastErr then
      ⟨nilSlice, FormatNone, c4.lastErr, c4.machine⟩
    else
      let usize := toUint w sizep
      if usize > MaxUint w >>> 1 then
        ⟨nilSlice, FormatNone, errorsNew "Size of clipboard too large", c4.machine⟩
      else
        let size := toInt w usize
        let c5 := Call w sys c4.machine .procGlobalLock [h]
        let l := c5.r1
        if l = 0 || isValidError c5.lastErr then
          ⟨nilSlice, FormatNone, c5.lastErr, c5.machine⟩
        else
          let p := l
          let data : SliceHeader := ⟨p, size, size⟩
          let c6 := Call w sys c5.machine .procGlobalUnlock [h]
          let r := c6.r1
          if r = 0 || isValidError c6.lastErr then
            ⟨nilSlice, FormatNone, c6.lastErr, c6.machine⟩
          else
            ⟨data, format, none, c6.machine⟩

/-- The function `getClipboardData` (clip_windows.go, lines 60 to 104).  The deferred
`procCloseClipboard.Call()` runs after the body, whatever the body returns;
its results are discarded. -/
def getClipboardData {σ : Type} (w : Nat) (sys : OS σ) (hwnd : Nat) (m : Machine σ) :
    Outcome σ :=
  let c1 := Call w sys m .procOpenClipboard [toUint w hwnd]
  let openClipboardSuccess := c1.r1
  if isValidError c1.lastErr || openClipboardSuccess != 1 then
    ⟨nilSlice, FormatNone, c1.lastErr, c1.machine⟩
  else
    let out := getClipboardDataBody w sys c1.machine
    let c7 := Call w sys out.machine .procCloseClipboard []
    { out with machine := c7.machine }

/-! ## clip.go -/

/-- How a Go function call ends: it returns a value or it panics. -/
inductive Completion (α : Type) where
  | returned (v : α)
  | panicked (msg : String)

/-- The value of `fmt.Sprintf("could not get from clipboard, %v", err)` for a
non-nil `err`. -/
def panicMessage (e : ErrorValue) : String :=
  "could not get from clipboard, " ++ e.Error

/-- The function `GetFromClipboard` (clip.go, lines 12 to 18), with the machine it leaves
behind. -/
def GetFromClipboard {σ : Type} (w : Nat) (sys : OS σ) (hwnd : Nat) (m : Machine σ) :
    Completion (SliceHeader × DataFormat × GoError) × Machine σ :=
  let out := getClipboardData w sys hwnd m
  match out.err with
  | some e => (.panicked (panicMessage e), out.machine)
  | none => (.returned (out.data, out.format, none), out.machine)

/-! ## A scripted operating system, for concrete runs -/

/-- The status `ERROR_SUCCESS`. -/
def errSuccess : Errno := ⟨"The operation completed successfully."⟩

/-- An operating system without state whose answer depends on the procedure
only. -/
def tableOS (t : Proc → Answer) : OS Unit := ⟨fun _ p _ => (t p, ())⟩

/-- The machine before the first call. -/
def start : Machine Unit := ⟨(), []⟩

/-- The procedures of a log, in call order. -/
def procsOf (l : List Event) : List Proc := l.map Event.proc

/-- A clipboard holding five bytes of text at address 4096 behind handle 77. -/
def textClipboard : Proc → Answer
  | .procOpenClipboard => ⟨1, errSuccess⟩
  | .procCloseClipboard => ⟨1, errSuccess⟩
  | .procGetClipboardData => ⟨77, errSuccess⟩
  | .procEnumClipboardFormats => ⟨1, errSuccess⟩
  | .procGlobalSize => ⟨5, errSuccess⟩
  | .procGlobalLock => ⟨4096, errSuccess⟩
  | .procGlobalUnlock => ⟨1, errSuccess⟩

/-- Another process holds the clipboard: `OpenClipboard` returns 0 with
`ERROR_ACCESS_DENIED`. -/
def busyClipboard : Proc → Answer
  | .procOpenClipboard => ⟨0, ⟨"Access is denied."⟩⟩
  | p => textClipboard p

/-- The clipboard of `textClipboard` with a block of `2 ^ 63` bytes. -/
def hugeClipboard : Proc → Answer
  | .procGlobalSize => ⟨2 ^ 63, errSuccess⟩
  | p => textClipboard p

/-- An empty clipboard: `EnumClipboardFormats(0)` returns 0, `GetClipboardData(0)`
returns the null handle without setting an error, and `GlobalSize` rejects the
null handle with `ERROR_INVALID_HANDLE`. -/
def emptyClipboard : Proc → Answer
  | .procEnumClipboardFormats => ⟨0, errSuccess⟩
  | .procGetClipboardData => ⟨0, errSuccess⟩
  | .procGlobalSize => ⟨0, ⟨"The handle is invalid."⟩⟩
  | p => textClipboard p

/-- The clipboard of `textClipboard` where `EnumClipboardFormats(0)` returns 0
and every later call still answers. -/
def formatZeroClipboard : Proc → Answer
  | .procEnumClipboardFormats => ⟨0, errSuccess⟩
  | p => textClipboard p

/-- The clipboard of `textClipboard` seen by a thread whose last-error status
is stale: `OpenClipboard` returns 1 and acquires the clipboard, while the
status reads `ERROR_INVALID_HANDLE`. -/
def staleStatusOnOpen : Proc → Answer
  | .procOpenClipboard => ⟨1, ⟨"The handle is invalid."⟩⟩
  | p => textClipboard p

/-- The clipboard of `textClipboard` where `EnumClipboardFormats` and
`CloseClipboard` report an error status. -/
def enumStatusError : Proc → Answer
  | .procEnumClipboardFormats => ⟨1, ⟨"Access is denied."⟩⟩
  | .procCloseClipboard => ⟨0, ⟨"Access is denied."⟩⟩
  | p => textClipboard p

/-- The clipboard of `textClipboard` where `GlobalLock` reports an error
status. -/
def lockStatusError : Proc → Answer
  | .procGlobalLock => ⟨0, ⟨"Not enough memory resources are available to process this command."⟩⟩
  | p => textClipboard p

/-- Unicode text is announced, and `GetClipboardData` returns the null handle
without setting an error; `GlobalSize` rejects the null handle. -/
def nullHandleClipboard : Proc → Answer
  | .procEnumClipboardFormats => ⟨13, errSuccess⟩
  | .procGetClipboardData => ⟨0, errSuccess⟩
  | .procGlobalSize => ⟨0, ⟨"The handle is invalid."⟩⟩
  | p => textClipboard p

/-! ## The calls of one read, in the order of the source

The source makes its calls in a fixed order, each on the machine the previous
one left.  These definitions name the result of each call of that chain; a
call further down the chain than the read actually got is what the operating
system would have answered. -/

/-- Line 61: `procOpenClipboard.Call(uintptr(hwnd))`. -/
def openCall {σ : Type} (w : Nat) (sys : OS σ) (hwnd : Nat) (m : Machine σ) : Called σ :=
  Call w sys m .procOpenClipboard [toUint w hwnd]

/-- Line 66: `procEnumClipboardFormats.Call(uintptr(0))`. -/
def enumCall {σ : Type} (w : Nat) (sys : OS σ) (hwnd : Nat) (m : Machine σ) : Called σ :=
  Call w sys (openCall w sys hwnd m).machine .procEnumClipboardFormats [0]

/-- Line 70: `procGetClipboardData.Call(enumFormat)`. -/
def dataCall {σ : Type} (w : Nat) (sys : OS σ) (hwnd : Nat) (m : Machine σ) : Called σ :=
  Call w sys (enumCall w sys hwnd m).machine .procGetClipboardData [(enumCall w sys hwnd m).r1]

/-- Line 75: `procGlobalSize.Call(h)`. -/
def sizeCall {σ : Type} (w : Nat) (sys : OS σ) (hwnd : Nat) (m : Machine σ) : Called σ :=
  Call w sys (dataCall w sys hwnd m).machine .procGlobalSize [(dataCall w sys hwnd m).r1]

/-- Line 86: `procGlobalLock.Call(h)`. -/
def lockCall {σ : Type} (w : Nat) (sys : OS σ) (hwnd : Nat) (m : Machine σ) : Called σ :=
  Call w sys (sizeCall w sys hwnd m).machine .procGlobalLock [(dataCall w sys hwnd m).r1]

/-- Line 98: `procGlobalUnlock.Call(h)`. -/
def unlockCall {σ : Type} (w : Nat) (sys : OS σ) (hwnd : Nat) (m : Machine σ) : Called σ :=
  Call w sys (lockCall w sys hwnd m).machine .procGlobalUnlock [(dataCall w sys hwnd m).r1]

/-- The log entry of a call. -/
def eventOf {σ : Type} (p : Proc) (a : List Nat) (c : Called σ) : Event :=
  ⟨p, a, c.r1, c.lastErr⟩

/-- The read accepted the open: line 62 did not return. -/
def openAccepted {σ : Type} (w : Nat) (sys : OS σ) (hwnd : Nat) (m : Machine σ) : Prop :=
  (openCall w sys hwnd m).r1 = 1 ∧ isValidError (openCall w sys hwnd m).lastErr = false

instance {σ : Type} (w : Nat) (sys : OS σ) (hwnd : Nat) (m : Machine σ) :
    Decidable (openAccepted w sys hwnd m) := by
  unfold openAccepted; infer_instance

/-- The log entries of the calls of the chain. -/
def openEvent {σ : Type} (w : Nat) (sys : OS σ) (hwnd : Nat) (m : Machine σ) : Event :=
  eventOf .procOpenClipboard [toUint w hwnd] (openCall w sys hwnd m)

def enumEvent {σ : Type} (w : Nat) (sys : OS σ) (hwnd : Nat) (m : Machine σ) : Event :=
  eventOf .procEnumClipboardFormats [0] (enumCall w sys hwnd m)

def dataEvent {σ : Type} (w : Nat) (sys : OS σ) (hwnd : Nat) (m : Machine σ) : Event :=
  eventOf .procGetClipboardData [(enumCall w sys hwnd m).r1] (dataCall w sys hwnd m)

def sizeEvent {σ : Type} (w : Nat) (sys : OS σ) (hwnd : Nat) (m : Machine σ) : Event :=
  eventOf .procGlobalSize [(dataCall w sys hwnd m).r1] (sizeCall w sys hwnd m)

def lockEvent {σ : Type} (w : Nat) (sys : OS σ) (hwnd : Nat) (m : Machine σ) : Event :=
  eventOf .procGlobalLock [(dataCall w sys hwnd m).r1] (lockCall w sys hwnd m)

def unlockEvent {σ : Type} (w : Nat) (sys : OS σ) (hwnd : Nat) (m : Machine σ) : Event :=
  eventOf .procGlobalUnlock [(dataCall w sys hwnd m).r1] (unlockCall w sys hwnd m)

/-- The log entry of the deferred `procCloseClipboard.Call()` made on machine `c`. -/
def closeEvent {σ : Type} (w : Nat) (sys : OS σ) (c : Machine σ) : Event :=
  eventOf .procCloseClipboard [] (Call w sys c .procCloseClipboard [])

/-- The read returned `(d, f, e)` and left the log `l`. -/
def exitsWith {σ : Type} (out : Outcome σ) (d : SliceHeader) (f : DataFormat) (e : GoError)
    (l : List Event) : Prop :=
  out.data = d ∧ out.format = f ∧ out.err = e ∧ out.machine.log = l

/-- The calls made by one read, in order: what the read appended to the log. -/
def callsMade {σ : Type} (w : Nat) (sys : OS σ) (hwnd : Nat) (m : Machine σ) : List Event :=
  (getClipboardData w sys hwnd m).machine.log.drop m.log.length

/-- Whether `GetFromClipboard` panicked. -/
def Completion.isPanic {α : Type} : Completion α → Bool
  | .panicked _ => true
  | .returned _ => false

/-! ## Basic facts -/

theorem toUint_idem (w x : Nat) : toUint w (toUint w x) = toUint w x := by
  unfold toUint
  exact Nat.mod_mod _ _

theorem Call_r1_idem {σ : Type} (w : Nat) (sys : OS σ) (m : Machine σ) (p : Proc) (a : List Nat) :
    toUint w (Call w sys m p a).r1 = (Call w sys m p a).r1 := by
  simp only [Call]
  exact toUint_idem _ _

theorem Call_lastErr_ne_none {σ : Type} (w : Nat) (sys : OS σ) (m : Machine σ) (p : Proc)
    (a : List Nat) : (Call w sys m p a).lastErr ≠ none := by
  simp [Call]

theorem Call_log {σ : Type} (w : Nat) (sys : OS σ) (m : Machine σ) (p : Proc) (a : List Nat) :
    (Call w sys m p a).machine.log = m.log ++ [eventOf p a (Call w sys m p a)] := by
  simp [Call, eventOf]

theorem isValidError_false_iff (e : GoError) :
    isValidError e = false ↔
      e = none ∨ ∃ v, e = some v ∧ v.Error = "The operation completed successfully." := by
  cases e with
  | none => simp [isValidError]
  | some v => by_cases h : v.Error = "The operation completed successfully." <;> simp [isValidError, h]

/-- The read unfolded along the chain of calls. -/
theorem getClipboardData_eq {σ : Type} (w : Nat) (sys : OS σ) (hwnd : Nat) (m : Machine σ) :
    getClipboardData w sys hwnd m =
      if isValidError (openCall w sys hwnd m).lastErr || (openCall w sys hwnd m).r1 != 1 then
        ⟨nilSlice, FormatNone, (openCall w sys hwnd m).lastErr, (openCall w sys hwnd m).machine⟩
      else
        { getClipboardDataBody w sys (openCall w sys hwnd m).machine with
          machine := (Call w sys (getClipboardDataBody w sys (openCall w sys hwnd m).machine).machine
            .procCloseClipboard []).machine } := rfl

/-- The body unfolded along the chain of calls. -/
theorem getClipboardDataBody_eq {σ : Type} (w : Nat) (sys : OS σ) (hwnd : Nat) (m : Machine σ) :
    getClipboardDataBody w sys (openCall w sys hwnd m).machine =
      if isValidError (dataCall w sys hwnd m).lastErr then
        ⟨nilSlice, FormatNone, (dataCall w sys hwnd m).lastErr, (dataCall w sys hwnd m).machine⟩
      else if isValidError (sizeCall w sys hwnd m).lastErr then
        ⟨nilSlice, FormatNone, (sizeCall w sys hwnd m).lastErr, (sizeCall w sys hwnd m).machine⟩
      else if (sizeCall w sys hwnd m).r1 > MaxUint w >>> 1 then
        ⟨nilSlice, FormatNone, errorsNew "Size of clipboard too large",
          (sizeCall w sys hwnd m).machine⟩
      else if (lockCall w sys hwnd m).r1 = 0 || isValidError (lockCall w sys hwnd m).lastErr then
        ⟨nilSlice, FormatNone, (lockCall w sys hwnd m).lastErr, (lockCall w sys hwnd m).machine⟩
      else if (unlockCall w sys hwnd m).r1 = 0 || isValidError (unlockCall w sys hwnd m).lastErr then
        ⟨nilSlice, FormatNone, (unlockCall w sys hwnd m).lastErr, (unlockCall w sys hwnd m).machine⟩
      else
        ⟨⟨(lockCall w sys hwnd m).r1, toInt w (sizeCall w sys hwnd m).r1,
            toInt w (sizeCall w sys hwnd m).r1⟩,
          toInt w (enumCall w sys hwnd m).r1, none, (unlockCall w sys hwnd m).machine⟩ := by
  have hs : toUint w (sizeCall w sys hwnd m).r1 = (sizeCall w sys hwnd m).r1 := Call_r1_idem _ _ _ _ _
  simp only [getClipboardDataBody]
  simp only [← enumCall.eq_1 w sys hwnd m]
  simp only [← dataCall.eq_1 w sys hwnd m]
  simp only [← sizeCall.eq_1 w sys hwnd m]
  simp only [← lockCall.eq_1 w sys hwnd m]
  simp only [← unlockCall.eq_1 w sys hwnd m]
  simp only [hs]

theorem openCall_log {σ : Type} (w : Nat) (sys : OS σ) (hwnd : Nat) (m : Machine σ) :
    (openCall w sys hwnd m).machine.log = m.log ++ [openEvent w sys hwnd m] := by
  simp [openCall, openEvent, Call_log]

theorem enumCall_log {σ : Type} (w : Nat) (sys : OS σ) (hwnd : Nat) (m : Machine σ) :
    (enumCall w sys hwnd m).machine.log =
      m.log ++ [openEvent w sys hwnd m, enumEvent w sys hwnd m] := by
  rw [enumCall, Call_log, openCall_log, ← enumCall]
  simp [enumEvent]

theorem dataCall_log {σ : Type} (w : Nat) (sys : OS σ) (hwnd : Nat) (m : Machine σ) :
    (dataCall w sys hwnd m).machine.log =
      m.log ++ [openEvent w sys hwnd m, enumEvent w sys hwnd m, dataEvent w sys hwnd m] := by
  rw [dataCall, Call_log, enumCall_log, ← dataCall]
  simp [dataEvent]

theorem sizeCall_log {σ : Type} (w : Nat) (sys : OS σ) (hwnd : Nat) (m : Machine σ) :
    (sizeCall w sys hwnd m).machine.log =
      m.log ++ [openEvent w sys hwnd m, enumEvent w sys hwnd m, dataEvent w sys hwnd m,
        sizeEvent w sys hwnd m] := by
  rw [sizeCall, Call_log, dataCall_log, ← sizeCall]
  simp [sizeEvent]

theorem lockCall_log {σ : Type} (w : Nat) (sys : OS σ) (hwnd : Nat) (m : Machine σ) :
    (lockCall w sys hwnd m).machine.log =
      m.log ++ [openEvent w sys hwnd m, enumEvent w sys hwnd m, dataEvent w sys hwnd m,
        sizeEvent w sys hwnd m, lockEvent w sys hwnd m] := by
  rw [lockCall, Call_log, sizeCall_log, ← lockCall]
  simp [lockEvent]

theorem unlockCall_log {σ : Type} (w : Nat) (sys : OS σ) (hwnd : Nat) (m : Machine σ) :
    (unlockCall w sys hwnd m).machine.log =
      m.log ++ [openEvent w sys hwnd m, enumEvent w sys hwnd m, dataEvent w sys hwnd m,
        sizeEvent w sys hwnd m, lockEvent w sys hwnd m, unlockEvent w sys hwnd m] := by
  rw [unlockCall, Call_log, lockCall_log, ← unlockCall]
  simp [unlockEvent]

theorem close_log {σ : Type} (w : Nat) (sys : OS σ) (c : Machine σ) :
    (Call w sys c .procCloseClipboard []).machine.log = c.log ++ [closeEvent w sys c] := by
  simp [closeEvent, Call_log]

/-- Every read ends in exactly one of seven ways; each way fixes the result
and the calls made. -/
theorem getClipboardData_cases {σ : Type} (w : Nat) (sys : OS σ) (hwnd : Nat) (m : Machine σ) :
    (¬ openAccepted w sys hwnd m ∧
      exitsWith (getClipboardData w sys hwnd m) nilSlice FormatNone
        (openCall w sys hwnd m).lastErr (m.log ++ [openEvent w sys hwnd m])) ∨
    (openAccepted w sys hwnd m ∧ isValidError (dataCall w sys hwnd m).lastErr = true ∧
      exitsWith (getClipboardData w sys hwnd m) nilSlice FormatNone
        (dataCall w sys hwnd m).lastErr
        (m.log ++ [openEvent w sys hwnd m, enumEvent w sys hwnd m, dataEvent w sys hwnd m,
          closeEvent w sys (dataCall w sys hwnd m).machine])) ∨
    (openAccepted w sys hwnd m ∧ isValidError (dataCall w sys hwnd m).lastErr = false ∧
      isValidError (sizeCall w sys hwnd m).lastErr = true ∧
      exitsWith (getClipboardData w sys hwnd m) nilSlice FormatNone
        (sizeCall w sys hwnd m).lastErr
        (m.log ++ [openEvent w sys hwnd m, enumEvent w sys hwnd m, dataEvent w sys hwnd m,
          sizeEvent w sys hwnd m, closeEvent w sys (sizeCall w sys hwnd m).machine])) ∨
    (openAccepted w sys hwnd m ∧ isValidError (dataCall w sys hwnd m).lastErr = false ∧
      isValidError (sizeCall w sys hwnd m).lastErr = false ∧
      MaxUint w >>> 1 < (sizeCall w sys hwnd m).r1 ∧
      exitsWith (getClipboardData w sys hwnd m) nilSlice FormatNone
        (errorsNew "Size of clipboard too large")
        (m.log ++ [openEvent w sys hwnd m, enumEvent w sys hwnd m, dataEvent w sys hwnd m,
          sizeEvent w sys hwnd m, closeEvent w sys (sizeCall w sys hwnd m).machine])) ∨
    (openAccepted w sys hwnd m ∧ isValidError (dataCall w sys hwnd m).lastErr = false ∧
      isValidError (sizeCall w sys hwnd m).lastErr = false ∧
      (sizeCall w sys hwnd m).r1 ≤ MaxUint w >>> 1 ∧
      ((lockCall w sys hwnd m).r1 = 0 ∨ isValidError (lockCall w sys hwnd m).lastErr = true) ∧
      exitsWith (getClipboardData w sys hwnd m) nilSlice FormatNone
        (lockCall w sys hwnd m).lastErr
        (m.log ++ [openEvent w sys hwnd m, enumEvent w sys hwnd m, dataEvent w sys hwnd m,
          sizeEvent w sys hwnd m, lockEvent w sys hwnd m,
          closeEvent w sys (lockCall w sys hwnd m).machine])) ∨
    (openAccepted w sys hwnd m ∧ isValidError (dataCall w sys hwnd m).lastErr = false ∧
      isValidError (sizeCall w sys hwnd m).lastErr = false ∧
      (sizeCall w sys hwnd m).r1 ≤ MaxUint w >>> 1 ∧
      ((lockCall w sys hwnd m).r1 ≠ 0 ∧ isValidError (lockCall w sys hwnd m).lastErr = false) ∧
      ((unlockCall w sys hwnd m).r1 = 0 ∨ isValidError (unlockCall w sys hwnd m).lastErr = true) ∧
      exitsWith (getClipboardData w sys hwnd m) nilSlice FormatNone
        (unlockCall w sys hwnd m).lastErr
        (m.log ++ [openEvent w sys hwnd m, enumEvent w sys hwnd m, dataEvent w sys hwnd m,
          sizeEvent w sys hwnd m, lockEvent w sys hwnd m, unlockEvent w sys hwnd m,
          closeEvent w sys (unlockCall w sys hwnd m).machine])) ∨
    (openAccepted w sys hwnd m ∧ isValidError (dataCall w sys hwnd m).lastErr = false ∧
      isValidError (sizeCall w sys hwnd m).lastErr = false ∧
      (sizeCall w sys hwnd m).r1 ≤ MaxUint w >>> 1 ∧
      ((lockCall w sys hwnd m).r1 ≠ 0 ∧ isValidError (lockCall w sys hwnd m).lastErr = false) ∧
      ((unlockCall w sys hwnd m).r1 ≠ 0 ∧ isValidError (unlockCall w sys hwnd m).lastErr = false) ∧
      exitsWith (getClipboardData w sys hwnd m)
        ⟨(lockCall w sys hwnd m).r1, toInt w (sizeCall w sys hwnd m).r1,
          toInt w (sizeCall w sys hwnd m).r1⟩
        (toInt w (enumCall w sys hwnd m).r1) none
        (m.log ++ [openEvent w sys hwnd m, enumEvent w sys hwnd m, dataEvent w sys hwnd m,
          sizeEvent w sys hwnd m, lockEvent w sys hwnd m, unlockEvent w sys hwnd m,
          closeEvent w sys (unlockCall w sys hwnd m).machine])) := by
  rw [getClipboardData_eq]
  by_cases ho : openAccepted w sys hwnd m
  · have ho' := ho
    obtain ⟨h1, h2⟩ := ho'
    have hcond : (isValidError (openCall w sys hwnd m).lastErr ||
        (openCall w sys hwnd m).r1 != 1) = false := by simp [h1, h2]
    rw [if_neg (by simp [hcond]), getClipboardDataBody_eq]
    right
    by_cases hd : isValidError (dataCall w sys hwnd m).lastErr = true
    · left
      simp [hd, ho, exitsWith, close_log, dataCall_log]
    · right
      simp only [Bool.not_eq_true] at hd
      by_cases hs : isValidError (sizeCall w sys hwnd m).lastErr = true
      · left
        simp [hd, hs, ho, exitsWith, close_log, sizeCall_log]
      · right
        simp only [Bool.not_eq_true] at hs
        by_cases hz : MaxUint w >>> 1 < (sizeCall w sys hwnd m).r1
        · left
          simp [hd, hs, hz, ho, exitsWith, close_log, sizeCall_log]
        · right
          have hz' : (sizeCall w sys hwnd m).r1 ≤ MaxUint w >>> 1 := Nat.le_of_not_lt hz
          by_cases hl : (lockCall w sys hwnd m).r1 = 0 ∨
              isValidError (lockCall w sys hwnd m).lastErr = true
          · left
            have hl' : ((lockCall w sys hwnd m).r1 = 0 ||
                isValidError (lockCall w sys hwnd m).lastErr) = true := by
              simpa using hl
            simp [hd, hs, hz, hz', ho, hl, hl', exitsWith, close_log, lockCall_log]
          · right
            have hl1 : (lockCall w sys hwnd m).r1 ≠ 0 := fun h => hl (Or.inl h)
            have hl2 : isValidError (lockCall w sys hwnd m).lastErr = false := by
              cases h : isValidError (lockCall w sys hwnd m).lastErr
              · rfl
              · exact absurd (Or.inr h) hl
            by_cases hu : (unlockCall w sys hwnd m).r1 = 0 ∨
                isValidError (unlockCall w sys hwnd m).lastErr = true
            · left
              have hu' : ((unlockCall w sys hwnd m).r1 = 0 ||
                  isValidError (unlockCall w sys hwnd m).lastErr) = true := by
                simpa using hu
              simp [hd, hs, hz, hz', ho, hl1, hl2, hu, hu', exitsWith, close_log, unlockCall_log]
            · right
              have hu1 : (unlockCall w sys hwnd m).r1 ≠ 0 := fun h => hu (Or.inl h)
              have hu2 : isValidError (unlockCall w sys hwnd m).lastErr = false := by
                cases h : isValidError (unlockCall w sys hwnd m).lastErr
                · rfl
                · exact absurd (Or.inr h) hu
              simp [hd, hs, hz, hz', ho, hl1, hl2, hu1, hu2, exitsWith, close_log, unlockCall_log]
  · left
    refine ⟨ho, ?_⟩
    have hcond : (isValidError (openCall w sys hwnd m).lastErr ||
        (openCall w sys hwnd m).r1 != 1) = true := by
      unfold openAccepted at ho
      by_cases h1 : (openCall w sys hwnd m).r1 = 1
      · have : isValidError (openCall w sys hwnd m).lastErr = true := by
          cases h : isValidError (openCall w sys hwnd m).lastErr
          · exact absurd ⟨h1, h⟩ ho
          · rfl
        simp [this]
      · simp [h1]
    rw [if_pos hcond]
    simp [exitsWith, openCall_log]

theorem callsMade_of_exitsWith {σ : Type} (w : Nat) (sys : OS σ) (hwnd : Nat) (m : Machine σ)
    {d : SliceHeader} {f : DataFormat} {e : GoError} {l : List Event}
    (h : exitsWith (getClipboardData w sys hwnd m) d f e (m.log ++ l)) :
    callsMade w sys hwnd m = l := by
  unfold callsMade
  rw [h.2.2.2]
  exact List.drop_left _ _

theorem two_pow_pos (w : Nat) : 0 < 2 ^ w := Nat.pos_pow_of_pos w (by decide)

/-- The bound `MaxUint>>1` is the largest value of the signed type. -/
theorem MaxUint_shift (w : Nat) : MaxUint w >>> 1 = 2 ^ (w - 1) - 1 := by
  unfold MaxUint
  rw [Nat.shiftRight_eq_div_pow]
  cases w with
  | zero => simp
  | succ k =>
    have h2 : 2 ^ (k + 1) = 2 * 2 ^ k := by rw [Nat.pow_succ, Nat.mul_comm]
    have hp := two_pow_pos k
    simp only [Nat.add_sub_cancel, h2, Nat.pow_one]
    omega

theorem half_le_pow (w : Nat) : 2 ^ (w - 1) ≤ 2 ^ w :=
  Nat.pow_le_pow_right (by decide) (Nat.sub_le w 1)

/-- A word that passes the size check keeps its value under `int(...)`. -/
theorem toInt_of_le (w x : Nat) (h : x ≤ MaxUint w >>> 1) : toInt w x = (x : Int) := by
  rw [MaxUint_shift] at h
  have hp := two_pow_pos (w - 1)
  have hle := half_le_pow w
  have hx : x % 2 ^ w = x := Nat.mod_eq_of_lt (by omega)
  unfold toInt
  rw [hx, if_pos (by omega)]

theorem toInt_zero (w : Nat) : toInt w 0 = 0 := by
  rw [toInt_of_le w 0 (Nat.zero_le _)]
  rfl

theorem Call_lastErr_ne_errorsNew {σ : Type} (w : Nat) (sys : OS σ) (m : Machine σ) (p : Proc)
    (a : List Nat) (t : String) : (Call w sys m p a).lastErr ≠ errorsNew t := by
  simp [Call, errorsNew]

/-- The condition under which the read runs to line 103. -/
theorem err_none_iff {σ : Type} (w : Nat) (sys : OS σ) (hwnd : Nat) (m : Machine σ) :
    (getClipboardData w sys hwnd m).err = none ↔
      openAccepted w sys hwnd m ∧ isValidError (dataCall w sys hwnd m).lastErr = false ∧
      isValidError (sizeCall w sys hwnd m).lastErr = false ∧
      (sizeCall w sys hwnd m).r1 ≤ MaxUint w >>> 1 ∧
      ((lockCall w sys hwnd m).r1 ≠ 0 ∧ isValidError (lockCall w sys hwnd m).lastErr = false) ∧
      ((unlockCall w sys hwnd m).r1 ≠ 0 ∧
        isValidError (unlockCall w sys hwnd m).lastErr = false) := by
  rcases getClipboardData_cases w sys hwnd m with ⟨ho, hx⟩ | ⟨ho, hd, hx⟩ | ⟨ho, hd, hs, hx⟩ |
    ⟨ho, hd, hs, hz, hx⟩ | ⟨ho, hd, hs, hz, hl, hx⟩ | ⟨ho, hd, hs, hz, hl, hu, hx⟩ |
    ⟨ho, hd, hs, hz, hl, hu, hx⟩
  · rw [hx.2.2.1]
    exact ⟨fun h => absurd h (Call_lastErr_ne_none _ _ _ _ _), fun h => absurd h.1 ho⟩
  · rw [hx.2.2.1]
    refine ⟨fun h => absurd h (Call_lastErr_ne_none _ _ _ _ _), fun h => ?_⟩
    rw [h.2.1] at hd; cases hd
  · rw [hx.2.2.1]
    refine ⟨fun h => absurd h (Call_lastErr_ne_none _ _ _ _ _), fun h => ?_⟩
    rw [h.2.2.1] at hs; cases hs
  · rw [hx.2.2.1]
    refine ⟨fun h => by simp [errorsNew] at h, fun h => ?_⟩
    exact absurd h.2.2.2.1 (Nat.not_le_of_lt hz)
  · rw [hx.2.2.1]
    refine ⟨fun h => absurd h (Call_lastErr_ne_none _ _ _ _ _), fun h => ?_⟩
    rcases hl with hl | hl
    · exact absurd hl h.2.2.2.2.1.1
    · rw [h.2.2.2.2.1.2] at hl; cases hl
  · rw [hx.2.2.1]
    refine ⟨fun h => absurd h (Call_lastErr_ne_none _ _ _ _ _), fun h => ?_⟩
    rcases hu with hu | hu
    · exact absurd hu h.2.2.2.2.2.1
    · rw [h.2.2.2.2.2.2] at hu; cases hu
  · rw [hx.2.2.1]
    exact ⟨fun _ => ⟨ho, hd, hs, hz, hl, hu⟩, fun _ => rfl⟩

/-- A read that fails returns nil data and `FormatNone`. -/
theorem failure_result {σ : Type} (w : Nat) (sys : OS σ) (hwnd : Nat) (m : Machine σ)
    (h : (getClipboardData w sys hwnd m).err ≠ none) :
    (getClipboardData w sys hwnd m).data = nilSlice ∧
    (getClipboardData w sys hwnd m).format = FormatNone := by
  rcases getClipboardData_cases w sys hwnd m with ⟨_, hx⟩ | ⟨_, _, hx⟩ | ⟨_, _, _, hx⟩ |
    ⟨_, _, _, _, hx⟩ | ⟨_, _, _, _, _, hx⟩ | ⟨_, _, _, _, _, _, hx⟩ | ⟨_, _, _, _, _, _, hx⟩
  all_goals first
    | exact ⟨hx.1, hx.2.1⟩
    | exact absurd hx.2.2.1 h

/-- What a read that succeeds returns, and the calls it made. -/
theorem success_result {σ : Type} (w : Nat) (sys : OS σ) (hwnd : Nat) (m : Machine σ)
    (h : (getClipboardData w sys hwnd m).err = none) :
    exitsWith (getClipboardData w sys hwnd m)
      ⟨(lockCall w sys hwnd m).r1, toInt w (sizeCall w sys hwnd m).r1,
        toInt w (sizeCall w sys hwnd m).r1⟩
      (toInt w (enumCall w sys hwnd m).r1) none
      (m.log ++ [openEvent w sys hwnd m, enumEvent w sys hwnd m, dataEvent w sys hwnd m,
        sizeEvent w sys hwnd m, lockEvent w sys hwnd m, unlockEvent w sys hwnd m,
        closeEvent w sys (unlockCall w sys hwnd m).machine]) := by
  rcases getClipboardData_cases w sys hwnd m with ⟨_, hx⟩ | ⟨_, _, hx⟩ | ⟨_, _, _, hx⟩ |
    ⟨_, _, _, _, hx⟩ | ⟨_, _, _, _, _, hx⟩ | ⟨_, _, _, _, _, _, hx⟩ | ⟨_, _, _, _, _, _, hx⟩
  · exact absurd (hx.2.2.1.symm.trans h) (Call_lastErr_ne_none _ _ _ _ _)
  · exact absurd (hx.2.2.1.symm.trans h) (Call_lastErr_ne_none _ _ _ _ _)
  · exact absurd (hx.2.2.1.symm.trans h) (Call_lastErr_ne_none _ _ _ _ _)
  · have := hx.2.2.1.symm.trans h
    simp [errorsNew] at this
  · exact absurd (hx.2.2.1.symm.trans h) (Call_lastErr_ne_none _ _ _ _ _)
  · exact absurd (hx.2.2.1.symm.trans h) (Call_lastErr_ne_none _ _ _ _ _)
  · exact hx

/-! ## The format table -/

/-- C9: the twenty-seven format tags have the values of the platform's
standard clipboard format table, they are pairwise distinct, and the private
range and the GDI-object range are non-empty, disjoint from each other and
contain no named tag other than their own end points. -/
theorem format_table :
    (FormatNone = 0 ∧ FormatText = 1 ∧ FormatBitmap = 2 ∧ FormatMetaFilePict = 3 ∧
      FormatSYLK = 4 ∧ FormatDIF = 5 ∧ FormatTIFF = 6 ∧ FormatOEMText = 7 ∧ FormatDIB = 8 ∧
      FormatPalette = 9 ∧ FormatPenData = 10 ∧ FormatRIFF = 11 ∧ FormatWave = 12 ∧
      FormatUnicodeText = 13 ∧ FormatENHMetaFile = 14 ∧ FormatHDROP = 15 ∧ FormatLocale = 16 ∧
      FormatDIBV5 = 17 ∧ FormatOwnerDisplay = 0x80 ∧ FormatDSPText = 0x81 ∧
      FormatDSPBitmap = 0x82 ∧ FormatDSPMetaFilePict = 0x83 ∧ FormatDSPENHMetaFile = 0x8E ∧
      FormatPrivateFirst = 0x200 ∧ FormatPrivateLast = 0x2FF ∧ FormatGDIObjFirst = 0x300 ∧
      FormatGDIObjLast = 0x3FF) ∧
    allFormats.length = 27 ∧ allFormats.Nodup ∧
    FormatPrivateFirst ≤ FormatPrivateLast ∧ FormatGDIObjFirst ≤ FormatGDIObjLast ∧
    (∀ x : DataFormat, ¬ ((FormatPrivateFirst ≤ x ∧ x ≤ FormatPrivateLast) ∧
      (FormatGDIObjFirst ≤ x ∧ x ≤ FormatGDIObjLast))) ∧
    (∀ f ∈ allFormats, f ≠ FormatPrivateFirst → f ≠ FormatPrivateLast →
      ¬ (FormatPrivateFirst ≤ f ∧ f ≤ FormatPrivateLast)) ∧
    (∀ f ∈ allFormats, f ≠ FormatGDIObjFirst → f ≠ FormatGDIObjLast →
      ¬ (FormatGDIObjFirst ≤ f ∧ f ≤ FormatGDIObjLast)) := by
  refine ⟨by decide, by decide, by decide, by decide, by decide, ?_, by decide, by decide⟩
  rintro x ⟨⟨_, h1⟩, ⟨h2, _⟩⟩
  exact absurd (le_trans h2 h1) (by decide)

/-! ## The open -/

/-- C2: when the open fails (its return value is not 1, or its status is not
the success status), the read returns a non-nil error with nil data and
`FormatNone`, and the open is the only call the read makes. -/
theorem failed_open_makes_no_further_call {σ : Type} (w : Nat) (sys : OS σ) (hwnd : Nat)
    (m : Machine σ)
    (h : (openCall w sys hwnd m).r1 ≠ 1 ∨ isValidError (openCall w sys hwnd m).lastErr = true) :
    (getClipboardData w sys hwnd m).err ≠ none ∧
    (getClipboardData w sys hwnd m).data = nilSlice ∧
    (getClipboardData w sys hwnd m).format = FormatNone ∧
    callsMade w sys hwnd m =
      [⟨.procOpenClipboard, [toUint w hwnd], (openCall w sys hwnd m).r1,
        (openCall w sys hwnd m).lastErr⟩] ∧
    procsOf (callsMade w sys hwnd m) = [.procOpenClipboard] := by
  have hno : ¬ openAccepted w sys hwnd m := by
    rintro ⟨h1, h2⟩
    rcases h with h | h
    · exact h h1
    · rw [h2] at h; cases h
  rcases getClipboardData_cases w sys hwnd m with ⟨_, hx⟩ | ⟨ho, _⟩ | ⟨ho, _⟩ | ⟨ho, _⟩ |
    ⟨ho, _⟩ | ⟨ho, _⟩ | ⟨ho, _⟩
  · have hc := callsMade_of_exitsWith w sys hwnd m hx
    obtain ⟨hd, hf, he, _⟩ := hx
    refine ⟨?_, hd, hf, ?_, ?_⟩
    · rw [he]; exact Call_lastErr_ne_none _ _ _ _ _
    · rw [hc]; rfl
    · rw [hc]; rfl
  all_goals exact absurd ho hno

/-- A run for C2: another process holds the clipboard, and the open is the only call. -/
theorem failed_open_makes_no_further_call_witness :
    ((openCall 64 (tableOS busyClipboard) 0 start).r1 ≠ 1 ∨
      isValidError (openCall 64 (tableOS busyClipboard) 0 start).lastErr = true) ∧
    (getClipboardData 64 (tableOS busyClipboard) 0 start).err ≠ none ∧
    (getClipboardData 64 (tableOS busyClipboard) 0 start).data = nilSlice ∧
    (getClipboardData 64 (tableOS busyClipboard) 0 start).format = FormatNone ∧
    callsMade 64 (tableOS busyClipboard) 0 start =
      [⟨.procOpenClipboard, [toUint 64 0], (openCall 64 (tableOS busyClipboard) 0 start).r1,
        (openCall 64 (tableOS busyClipboard) 0 start).lastErr⟩] ∧
    procsOf (callsMade 64 (tableOS busyClipboard) 0 start) = [.procOpenClipboard] :=
  ⟨by decide, failed_open_makes_no_further_call 64 (tableOS busyClipboard) 0 start (by decide)⟩

/-! ## The wrapper -/

/-- C5: `GetFromClipboard` panics exactly when `getClipboardData` returned a
non-nil error; when it returns, its error is nil and its bytes and format are
those `getClipboardData` returned.  It makes no call of its own. -/
theorem GetFromClipboard_escalates {σ : Type} (w : Nat) (sys : OS σ) (hwnd : Nat)
    (m : Machine σ) :
    ((GetFromClipboard w sys hwnd m).1.isPanic = true ↔
      (getClipboardData w sys hwnd m).err ≠ none) ∧
    (∀ e, (getClipboardData w sys hwnd m).err = some e →
      (GetFromClipboard w sys hwnd m).1 = .panicked ("could not get from clipboard, " ++ e.Error)) ∧
    ((getClipboardData w sys hwnd m).err = none →
      (GetFromClipboard w sys hwnd m).1 = .returned
        ((getClipboardData w sys hwnd m).data, (getClipboardData w sys hwnd m).format, none)) ∧
    (∀ d f e, (GetFromClipboard w sys hwnd m).1 = .returned (d, f, e) →
      e = none ∧ d = (getClipboardData w sys hwnd m).data ∧
      f = (getClipboardData w sys hwnd m).format ∧ (getClipboardData w sys hwnd m).err = none) ∧
    (GetFromClipboard w sys hwnd m).2 = (getClipboardData w sys hwnd m).machine := by
  cases h : (getClipboardData w sys hwnd m).err with
  | none =>
    have hg : GetFromClipboard w sys hwnd m =
        (.returned ((getClipboardData w sys hwnd m).data,
          (getClipboardData w sys hwnd m).format, none),
          (getClipboardData w sys hwnd m).machine) := by
      simp only [GetFromClipboard, h]
    rw [hg]
    refine ⟨by simp [Completion.isPanic], by simp, fun _ => rfl, ?_, rfl⟩
    intro d f e hd
    injection hd with hd
    injection hd with hd1 hd
    injection hd with hd2 hd3
    exact ⟨hd3.symm, hd1.symm, hd2.symm, rfl⟩
  | some e =>
    have hg : GetFromClipboard w sys hwnd m =
        (.panicked ("could not get from clipboard, " ++ e.Error),
          (getClipboardData w sys hwnd m).machine) := by
      simp only [GetFromClipboard, h, panicMessage]
    rw [hg]
    refine ⟨by simp [Completion.isPanic], ?_, by simp, ?_, rfl⟩
    · intro e2 he2
      injection he2 with he2
      rw [he2]
    · intro d f e2 hd
      cases hd

/-! ## The success condition -/

/-- C10: the read returns a nil error exactly when `OpenClipboard` returned 1
with a success status, `GetClipboardData` had a success status, `GlobalSize`
had a success status and a size of at most `MaxUint>>1`, `GlobalLock`
returned a non-zero address with a success status and `GlobalUnlock` returned
a non-zero value with a success status; in every other case it returns nil
data, `FormatNone` and a non-nil error.  A status is a success status when
`isValidError` is false on it: the error is nil or its text is the text of
`ERROR_SUCCESS`.  In particular an unlock that returns 0, or an open that
returns a value other than 1, fails the read whatever the statuses are. -/
theorem success_condition {σ : Type} (w : Nat) (sys : OS σ) (hwnd : Nat) (m : Machine σ) :
    ((getClipboardData w sys hwnd m).err = none ↔
      ((openCall w sys hwnd m).r1 = 1 ∧ isValidError (openCall w sys hwnd m).lastErr = false) ∧
      isValidError (dataCall w sys hwnd m).lastErr = false ∧
      (isValidError (sizeCall w sys hwnd m).lastErr = false ∧
        (sizeCall w sys hwnd m).r1 ≤ MaxUint w >>> 1) ∧
      ((lockCall w sys hwnd m).r1 ≠ 0 ∧ isValidError (lockCall w sys hwnd m).lastErr = false) ∧
      ((unlockCall w sys hwnd m).r1 ≠ 0 ∧
        isValidError (unlockCall w sys hwnd m).lastErr = false)) ∧
    ((getClipboardData w sys hwnd m).err ≠ none →
      (getClipboardData w sys hwnd m).data = nilSlice ∧
      (getClipboardData w sys hwnd m).format = FormatNone) ∧
    (∀ e : GoError, isValidError e = false ↔
      e = none ∨ ∃ v, e = some v ∧ v.Error = "The operation completed successfully.") ∧
    ((unlockCall w sys hwnd m).r1 = 0 → (getClipboardData w sys hwnd m).err ≠ none) ∧
    ((openCall w sys hwnd m).r1 ≠ 1 → (getClipboardData w sys hwnd m).err ≠ none) := by
  have hiff := err_none_iff w sys hwnd m
  refine ⟨?_, failure_result w sys hwnd m, isValidError_false_iff, ?_, ?_⟩
  · rw [hiff]
    unfold openAccepted
    constructor
    · rintro ⟨ho, hd, hs, hz, hl, hu⟩
      exact ⟨ho, hd, ⟨hs, hz⟩, hl, hu⟩
    · rintro ⟨ho, hd, ⟨hs, hz⟩, hl, hu⟩
      exact ⟨ho, hd, hs, hz, hl, hu⟩
  · intro h0 hn
    exact (hiff.mp hn).2.2.2.2.2.1 h0
  · intro h1 hn
    exact h1 (hiff.mp hn).1.1

/-! ## The result of a successful read -/

/-- C6: when the read returns a nil error, the format tag is the value
`EnumClipboardFormats(0)` returned, converted to `DataFormat` as line 68 does
(the same number whenever that value is at most `MaxUint>>1`); the byte view
starts at the address `GlobalLock` returned and its length and capacity are
the size `GlobalSize` returned for the handle that `GetClipboardData` returned
for that same format. -/
theorem successful_read_result {σ : Type} (w : Nat) (sys : OS σ) (hwnd : Nat) (m : Machine σ)
    (h : (getClipboardData w sys hwnd m).err = none) :
    (getClipboardData w sys hwnd m).format = toInt w (enumCall w sys hwnd m).r1 ∧
    ((enumCall w sys hwnd m).r1 ≤ MaxUint w >>> 1 →
      (getClipboardData w sys hwnd m).format = ((enumCall w sys hwnd m).r1 : Int)) ∧
    (getClipboardData w sys hwnd m).data.Data = (lockCall w sys hwnd m).r1 ∧
    (getClipboardData w sys hwnd m).data.Len = ((sizeCall w sys hwnd m).r1 : Int) ∧
    (getClipboardData w sys hwnd m).data.Cap = ((sizeCall w sys hwnd m).r1 : Int) ∧
    callsMade w sys hwnd m =
      [⟨.procOpenClipboard, [toUint w hwnd], (openCall w sys hwnd m).r1,
          (openCall w sys hwnd m).lastErr⟩,
        ⟨.procEnumClipboardFormats, [0], (enumCall w sys hwnd m).r1,
          (enumCall w sys hwnd m).lastErr⟩,
        ⟨.procGetClipboardData, [(enumCall w sys hwnd m).r1], (dataCall w sys hwnd m).r1,
          (dataCall w sys hwnd m).lastErr⟩,
        ⟨.procGlobalSize, [(dataCall w sys hwnd m).r1], (sizeCall w sys hwnd m).r1,
          (sizeCall w sys hwnd m).lastErr⟩,
        ⟨.procGlobalLock, [(dataCall w sys hwnd m).r1], (lockCall w sys hwnd m).r1,
          (lockCall w sys hwnd m).lastErr⟩,
        ⟨.procGlobalUnlock, [(dataCall w sys hwnd m).r1], (unlockCall w sys hwnd m).r1,
          (unlockCall w sys hwnd m).lastErr⟩,
        closeEvent w sys (unlockCall w sys hwnd m).machine] := by
  have hx := success_result w sys hwnd m h
  have hc := callsMade_of_exitsWith w sys hwnd m hx
  have hz := ((err_none_iff w sys hwnd m).mp h).2.2.2.1
  obtain ⟨hd, hf, _, _⟩ := hx
  refine ⟨hf, ?_, ?_, ?_, ?_, ?_⟩
  · intro hle
    rw [hf, toInt_of_le w _ hle]
  · rw [hd]
  · rw [hd]; exact toInt_of_le w _ hz
  · rw [hd]; exact toInt_of_le w _ hz
  · rw [hc]; rfl

/-- A run for C6: five bytes of text at address 4096. -/
theorem successful_read_result_witness :
    (getClipboardData 64 (tableOS textClipboard) 0 start).err = none ∧
    (getClipboardData 64 (tableOS textClipboard) 0 start).format = FormatText ∧
    (getClipboardData 64 (tableOS textClipboard) 0 start).data = ⟨4096, 5, 5⟩ ∧
    (getClipboardData 64 (tableOS textClipboard) 0 start).data.Len =
      ((sizeCall 64 (tableOS textClipboard) 0 start).r1 : Int) :=
  ⟨by decide, by decide, by decide,
    (successful_read_result 64 (tableOS textClipboard) 0 start (by decide)).2.2.2.1⟩

/-! ## The size check -/

/-- C3: in a read that reaches `GlobalSize` and gets a success status from
it, a size above `2 ^ (w - 1) - 1` (which is `MaxUint>>1`) ends the read with
the size-too-large error before `GlobalLock` is called; a size of at most
`2 ^ (w - 1) - 1` passes the check, so that `GlobalLock` is called next, and
`int(usize)` is the same number. -/
theorem size_overflow_rejected {σ : Type} (w : Nat) (sys : OS σ) (hwnd : Nat) (m : Machine σ)
    (ho : openAccepted w sys hwnd m)
    (hd : isValidError (dataCall w sys hwnd m).lastErr = false)
    (hs : isValidError (sizeCall w sys hwnd m).lastErr = false) :
    MaxUint w >>> 1 = 2 ^ (w - 1) - 1 ∧
    (2 ^ (w - 1) - 1 < toUint w (sizeCall w sys hwnd m).r1 →
      (getClipboardData w sys hwnd m).err = errorsNew "Size of clipboard too large" ∧
      (getClipboardData w sys hwnd m).data = nilSlice ∧
      (getClipboardData w sys hwnd m).format = FormatNone ∧
      Proc.procGlobalLock ∉ procsOf (callsMade w sys hwnd m)) ∧
    (toUint w (sizeCall w sys hwnd m).r1 ≤ 2 ^ (w - 1) - 1 →
      (getClipboardData w sys hwnd m).err ≠ errorsNew "Size of clipboard too large" ∧
      (⟨.procGlobalLock, [(dataCall w sys hwnd m).r1], (lockCall w sys hwnd m).r1,
        (lockCall w sys hwnd m).lastErr⟩ : Event) ∈ callsMade w sys hwnd m ∧
      toInt w (toUint w (sizeCall w sys hwnd m).r1) =
        ((toUint w (sizeCall w sys hwnd m).r1 : Nat) : Int)) := by
  have hidem : toUint w (sizeCall w sys hwnd m).r1 = (sizeCall w sys hwnd m).r1 :=
    Call_r1_idem _ _ _ _ _
  rw [hidem, ← MaxUint_shift]
  refine ⟨rfl, ?_, ?_⟩
  · intro hbig
    rcases getClipboardData_cases w sys hwnd m with ⟨ho', _⟩ | ⟨_, hd', _⟩ | ⟨_, _, hs', _⟩ |
      ⟨_, _, _, _, hx⟩ | ⟨_, _, _, hz, _⟩ | ⟨_, _, _, hz, _⟩ | ⟨_, _, _, hz, _⟩
    · exact absurd ho ho'
    · rw [hd] at hd'; cases hd'
    · rw [hs] at hs'; cases hs'
    · have hc := callsMade_of_exitsWith w sys hwnd m hx
      refine ⟨hx.2.2.1, hx.1, hx.2.1, ?_⟩
      rw [hc]
      simp [procsOf, openEvent, enumEvent, dataEvent, sizeEvent, closeEvent, eventOf]
    · exact absurd hz (Nat.not_le_of_lt hbig)
    · exact absurd hz (Nat.not_le_of_lt hbig)
    · exact absurd hz (Nat.not_le_of_lt hbig)
  · intro hsmall
    refine ⟨?_, ?_, toInt_of_le w _ hsmall⟩
    · rcases getClipboardData_cases w sys hwnd m with ⟨ho', _⟩ | ⟨_, hd', _⟩ | ⟨_, _, hs', _⟩ |
        ⟨_, _, _, hz, _⟩ | ⟨_, _, _, _, _, hx⟩ | ⟨_, _, _, _, _, _, hx⟩ | ⟨_, _, _, _, _, _, hx⟩
      · exact absurd ho ho'
      · rw [hd] at hd'; cases hd'
      · rw [hs] at hs'; cases hs'
      · exact absurd hsmall (Nat.not_le_of_lt hz)
      · rw [hx.2.2.1]; exact Call_lastErr_ne_errorsNew _ _ _ _ _ _
      · rw [hx.2.2.1]; exact Call_lastErr_ne_errorsNew _ _ _ _ _ _
      · rw [hx.2.2.1]; simp [errorsNew]
    · rcases getClipboardData_cases w sys hwnd m with ⟨ho', _⟩ | ⟨_, hd', _⟩ | ⟨_, _, hs', _⟩ |
        ⟨_, _, _, hz, _⟩ | ⟨_, _, _, _, _, hx⟩ | ⟨_, _, _, _, _, _, hx⟩ | ⟨_, _, _, _, _, _, hx⟩
      · exact absurd ho ho'
      · rw [hd] at hd'; cases hd'
      · rw [hs] at hs'; cases hs'
      · exact absurd hsmall (Nat.not_le_of_lt hz)
      all_goals
        rw [callsMade_of_exitsWith w sys hwnd m hx]
        simp [lockEvent, eventOf]

/-- A run for C3: a block of `2 ^ 63` bytes on a 64-bit platform is rejected before the lock. -/
theorem size_overflow_rejected_witness :
    (openAccepted 64 (tableOS hugeClipboard) 0 start ∧
      isValidError (dataCall 64 (tableOS hugeClipboard) 0 start).lastErr = false ∧
      isValidError (sizeCall 64 (tableOS hugeClipboard) 0 start).lastErr = false ∧
      2 ^ (64 - 1) - 1 < toUint 64 (sizeCall 64 (tableOS hugeClipboard) 0 start).r1) ∧
    (getClipboardData 64 (tableOS hugeClipboard) 0 start).err =
      errorsNew "Size of clipboard too large" ∧
    (getClipboardData 64 (tableOS hugeClipboard) 0 start).data = nilSlice ∧
    (getClipboardData 64 (tableOS hugeClipboard) 0 start).format = FormatNone ∧
    Proc.procGlobalLock ∉ procsOf (callsMade 64 (tableOS hugeClipboard) 0 start) :=
  ⟨by decide,
    (size_overflow_rejected 64 (tableOS hugeClipboard) 0 start (by decide) (by decide)
      (by decide)).2.1 (by decide)⟩

/-! ## The empty clipboard -/

/-- C1, refuted as stated: on an empty clipboard that the read opened, where
`EnumClipboardFormats(0)` returned 0, the read goes on to `GetClipboardData`
and `GlobalSize` and returns the failure `GlobalSize` reported. -/
theorem empty_clipboard_reaches_GlobalSize :
    openAccepted 64 (tableOS emptyClipboard) 0 start ∧
    (enumCall 64 (tableOS emptyClipboard) 0 start).r1 = 0 ∧
    procsOf (callsMade 64 (tableOS emptyClipboard) 0 start) =
      [.procOpenClipboard, .procEnumClipboardFormats, .procGetClipboardData, .procGlobalSize,
        .procCloseClipboard] ∧
    (getClipboardData 64 (tableOS emptyClipboard) 0 start).err =
      some (.errno ⟨"The handle is invalid."⟩) := by
  decide

/-- C1, amended: when the open is accepted and `EnumClipboardFormats(0)`
returns 0, the read does not stop there: its third call is
`GetClipboardData(0)`.  Whenever such a read returns a nil error, the format
is `FormatNone` and the byte view has the address `GlobalLock` returned and,
as length and capacity, the size `GlobalSize` returned. -/
theorem empty_clipboard_is_read_like_any_other {σ : Type} (w : Nat) (sys : OS σ) (hwnd : Nat)
    (m : Machine σ) (ho : openAccepted w sys hwnd m) (he : (enumCall w sys hwnd m).r1 = 0) :
    (∃ rest, callsMade w sys hwnd m =
      ⟨.procOpenClipboard, [toUint w hwnd], 1, (openCall w sys hwnd m).lastErr⟩ ::
      ⟨.procEnumClipboardFormats, [0], 0, (enumCall w sys hwnd m).lastErr⟩ ::
      ⟨.procGetClipboardData, [0], (dataCall w sys hwnd m).r1,
        (dataCall w sys hwnd m).lastErr⟩ :: rest) ∧
    ((getClipboardData w sys hwnd m).err = none →
      (getClipboardData w sys hwnd m).format = FormatNone ∧
      (getClipboardData w sys hwnd m).data =
        ⟨(lockCall w sys hwnd m).r1, ((sizeCall w sys hwnd m).r1 : Int),
          ((sizeCall w sys hwnd m).r1 : Int)⟩) := by
  have ho1 : (openCall w sys hwnd m).r1 = 1 := ho.1
  refine ⟨?_, ?_⟩
  · rcases getClipboardData_cases w sys hwnd m with ⟨ho', _⟩ | ⟨_, _, hx⟩ | ⟨_, _, _, hx⟩ |
      ⟨_, _, _, _, hx⟩ | ⟨_, _, _, _, _, hx⟩ | ⟨_, _, _, _, _, _, hx⟩ | ⟨_, _, _, _, _, _, hx⟩
    · exact absurd ho ho'
    all_goals
      rw [callsMade_of_exitsWith w sys hwnd m hx]
      simp [openEvent, enumEvent, dataEvent, eventOf, he, ho1]
  · intro h
    have hx := success_result w sys hwnd m h
    have hz := ((err_none_iff w sys hwnd m).mp h).2.2.2.1
    refine ⟨?_, ?_⟩
    · rw [hx.2.1, he, toInt_zero]; rfl
    · rw [hx.1, toInt_of_le w _ hz]

/-- A run for C1: the enumeration returns 0, the later calls answer, and the read returns
five bytes with `FormatNone`. -/
theorem empty_clipboard_is_read_like_any_other_witness :
    (openAccepted 64 (tableOS formatZeroClipboard) 0 start ∧
      (enumCall 64 (tableOS formatZeroClipboard) 0 start).r1 = 0 ∧
      (getClipboardData 64 (tableOS formatZeroClipboard) 0 start).err = none) ∧
    (getClipboardData 64 (tableOS formatZeroClipboard) 0 start).format = FormatNone ∧
    (getClipboardData 64 (tableOS formatZeroClipboard) 0 start).data =
      ⟨(lockCall 64 (tableOS formatZeroClipboard) 0 start).r1,
        ((sizeCall 64 (tableOS formatZeroClipboard) 0 start).r1 : Int),
        ((sizeCall 64 (tableOS formatZeroClipboard) 0 start).r1 : Int)⟩ :=
  ⟨by decide,
    (empty_clipboard_is_read_like_any_other 64 (tableOS formatZeroClipboard) 0 start (by decide)
      (by decide)).2 (by decide)⟩

/-! ## Closing the clipboard -/

/-- C4, refuted as stated: `OpenClipboard` returns 1, so the clipboard is
acquired, while the last-error status is not the success status; the read
returns after the open and `CloseClipboard` is never called. -/
theorem acquired_clipboard_left_open :
    (openCall 64 (tableOS staleStatusOnOpen) 0 start).r1 = 1 ∧
    procsOf (callsMade 64 (tableOS staleStatusOnOpen) 0 start) = [.procOpenClipboard] ∧
    (procsOf (callsMade 64 (tableOS staleStatusOnOpen) 0 start)).count .procCloseClipboard = 0 := by
  decide

/-- C4, amended: on every exit path on which the read accepted the open (it
returned exactly 1 with a success status), `CloseClipboard` is called exactly
once, and it is the last call of the read. -/
theorem accepted_open_is_closed {σ : Type} (w : Nat) (sys : OS σ) (hwnd : Nat) (m : Machine σ)
    (ho : openAccepted w sys hwnd m) :
    (procsOf (callsMade w sys hwnd m)).count .procCloseClipboard = 1 ∧
    (procsOf (callsMade w sys hwnd m)).getLast? = some .procCloseClipboard := by
  rcases getClipboardData_cases w sys hwnd m with ⟨ho', _⟩ | ⟨_, _, hx⟩ | ⟨_, _, _, hx⟩ |
    ⟨_, _, _, _, hx⟩ | ⟨_, _, _, _, _, hx⟩ | ⟨_, _, _, _, _, _, hx⟩ | ⟨_, _, _, _, _, _, hx⟩
  · exact absurd ho ho'
  all_goals
    rw [callsMade_of_exitsWith w sys hwnd m hx]
    simp [procsOf, openEvent, enumEvent, dataEvent, sizeEvent, lockEvent, unlockEvent,
      closeEvent, eventOf]

/-- A run for C4: the lock fails after an accepted open, and the clipboard is closed. -/
theorem accepted_open_is_closed_witness :
    openAccepted 64 (tableOS lockStatusError) 0 start ∧
    (getClipboardData 64 (tableOS lockStatusError) 0 start).err ≠ none ∧
    (procsOf (callsMade 64 (tableOS lockStatusError) 0 start)).count .procCloseClipboard = 1 ∧
    (procsOf (callsMade 64 (tableOS lockStatusError) 0 start)).getLast? =
      some .procCloseClipboard :=
  ⟨by decide, by decide,
    accepted_open_is_closed 64 (tableOS lockStatusError) 0 start (by decide)⟩

/-! ## Error statuses -/

/-- C7, refuted as stated: `EnumClipboardFormats` and `CloseClipboard` both
return an error status, and the read succeeds with the bytes and the format. -/
theorem enum_status_error_is_ignored :
    isValidError (enumCall 64 (tableOS enumStatusError) 0 start).lastErr = true ∧
    (⟨.procEnumClipboardFormats, [0], 1, some (.errno ⟨"Access is denied."⟩)⟩ : Event) ∈
      callsMade 64 (tableOS enumStatusError) 0 start ∧
    (⟨.procCloseClipboard, [], 0, some (.errno ⟨"Access is denied."⟩)⟩ : Event) ∈
      callsMade 64 (tableOS enumStatusError) 0 start ∧
    (getClipboardData 64 (tableOS enumStatusError) 0 start).err = none ∧
    (getClipboardData 64 (tableOS enumStatusError) 0 start).data = ⟨4096, 5, 5⟩ ∧
    (getClipboardData 64 (tableOS enumStatusError) 0 start).format = FormatText := by
  decide

/-- C7, amended: if a call the read made to `OpenClipboard`,
`GetClipboardData`, `GlobalSize`, `GlobalLock` or `GlobalUnlock` returned an
error status, as decided by `isValidError`, the read returns a non-nil error
with nil data and `FormatNone`; and no procedure is called twice in one
read. -/
theorem checked_status_error_is_fatal {σ : Type} (w : Nat) (sys : OS σ) (hwnd : Nat)
    (m : Machine σ) :
    (∀ ev ∈ callsMade w sys hwnd m, ev.proc ≠ .procEnumClipboardFormats →
      ev.proc ≠ .procCloseClipboard → isValidError ev.lastErr = true →
      (getClipboardData w sys hwnd m).err ≠ none ∧
      (getClipboardData w sys hwnd m).data = nilSlice ∧
      (getClipboardData w sys hwnd m).format = FormatNone) ∧
    (procsOf (callsMade w sys hwnd m)).Nodup := by
  constructor
  · intro ev hev hne hnc hbad
    have hfail : (getClipboardData w sys hwnd m).err ≠ none := by
      intro hn
      have hx := success_result w sys hwnd m hn
      obtain ⟨ho, hd, hs, _, hl, hu⟩ := (err_none_iff w sys hwnd m).mp hn
      rw [callsMade_of_exitsWith w sys hwnd m hx] at hev
      simp only [List.mem_cons, List.mem_singleton, List.not_mem_nil, or_false] at hev
      rcases hev with rfl | rfl | rfl | rfl | rfl | rfl | rfl
      · have : isValidError (openCall w sys hwnd m).lastErr = true := hbad
        rw [ho.2] at this; cases this
      · exact hne rfl
      · have : isValidError (dataCall w sys hwnd m).lastErr = true := hbad
        rw [hd] at this; cases this
      · have : isValidError (sizeCall w sys hwnd m).lastErr = true := hbad
        rw [hs] at this; cases this
      · have : isValidError (lockCall w sys hwnd m).lastErr = true := hbad
        rw [hl.2] at this; cases this
      · have : isValidError (unlockCall w sys hwnd m).lastErr = true := hbad
        rw [hu.2] at this; cases this
      · exact hnc rfl
    exact ⟨hfail, failure_result w sys hwnd m hfail⟩
  · rcases getClipboardData_cases w sys hwnd m with ⟨_, hx⟩ | ⟨_, _, hx⟩ | ⟨_, _, _, hx⟩ |
      ⟨_, _, _, _, hx⟩ | ⟨_, _, _, _, _, hx⟩ | ⟨_, _, _, _, _, _, hx⟩ | ⟨_, _, _, _, _, _, hx⟩
    all_goals
      rw [callsMade_of_exitsWith w sys hwnd m hx]
      simp [procsOf, openEvent, enumEvent, dataEvent, sizeEvent, lockEvent, unlockEvent,
        closeEvent, eventOf]

/-- A run for C7: an error status of `GlobalLock` fails the read. -/
theorem checked_status_error_is_fatal_witness :
    (⟨.procGlobalLock, [77], 0,
        some (.errno ⟨"Not enough memory resources are available to process this command."⟩)⟩ :
      Event) ∈ callsMade 64 (tableOS lockStatusError) 0 start ∧
    (getClipboardData 64 (tableOS lockStatusError) 0 start).err ≠ none ∧
    (getClipboardData 64 (tableOS lockStatusError) 0 start).data = nilSlice ∧
    (getClipboardData 64 (tableOS lockStatusError) 0 start).format = FormatNone :=
  ⟨by decide,
    (checked_status_error_is_fatal 64 (tableOS lockStatusError) 0 start).1
      ⟨.procGlobalLock, [77], 0,
        some (.errno ⟨"Not enough memory resources are available to process this command."⟩)⟩
      (by decide) (by decide) (by decide) (by decide)⟩

/-! ## The null handle -/

/-- C8, the read at the failing input: `GetClipboardData` returns the null
handle with a success status, and the read passes the null handle to
`GlobalSize` instead of returning. -/
theorem null_handle_is_passed_to_GlobalSize :
    openAccepted 64 (tableOS nullHandleClipboard) 0 start ∧
    (dataCall 64 (tableOS nullHandleClipboard) 0 start).r1 = 0 ∧
    callsMade 64 (tableOS nullHandleClipboard) 0 start =
      [⟨.procOpenClipboard, [0], 1, some (.errno errSuccess)⟩,
        ⟨.procEnumClipboardFormats, [0], 13, some (.errno errSuccess)⟩,
        ⟨.procGetClipboardData, [13], 0, some (.errno errSuccess)⟩,
        ⟨.procGlobalSize, [0], 0, some (.errno ⟨"The handle is invalid."⟩)⟩,
        ⟨.procCloseClipboard, [], 1, some (.errno errSuccess)⟩] ∧
    (getClipboardData 64 (tableOS nullHandleClipboard) 0 start).err =
      some (.errno ⟨"The handle is invalid."⟩) := by
  decide

end Clipboard
